import Mathlib

/-!
# Crop control of a video-capture device (`v4l2/crop.go`)

A shallow embedding of `crop.go`: the three Go structures `Rect`, `Fract` and
`CropCapability`, the kernel structures they are reinterpreted as, the two
operations `GetCropCapability` and `SetCropRect` over a byte-addressed memory,
and the diagnostic rendering `CropCapability.String`.
-/

namespace V4l2

/-! ## Structure layout -/

/-- A field of a structure: its name, its size in bytes and its alignment. -/
structure Field where
  name : String
  size : Nat
  align : Nat
  deriving DecidableEq, Repr

/-- The least multiple of `a` that is at least `off`. -/
def alignUp (off a : Nat) : Nat := (off + a - 1) / a * a

/-- Offsets of the fields in declaration order, each rounded up to the
alignment of its field, starting at offset `off`. -/
def offsetsFrom : Nat → List Field → List (String × Nat)
  | _, [] => []
  | off, f :: fs => (f.name, alignUp off f.align) :: offsetsFrom (alignUp off f.align + f.size) fs

/-- The offset just past the last field. -/
def endFrom : Nat → List Field → Nat
  | off, [] => off
  | off, f :: fs => endFrom (alignUp off f.align + f.size) fs

/-- The alignment of a structure: the largest alignment of its fields. -/
def structAlign (fs : List Field) : Nat := fs.foldl (fun a f => max a f.align) 1

/-- The size of a structure: the end of its last field rounded up to the
alignment of the structure. -/
def structSize (fs : List Field) : Nat := alignUp (endFrom 0 fs) (structAlign fs)

/-- The offset of the field called `n` (0 when there is none). -/
def offsetOf (fs : List Field) (n : String) : Nat :=
  match (offsetsFrom 0 fs).find? (fun p => p.1 == n) with
  | some p => p.2
  | none => 0

/-- A 32-bit field, signed or unsigned: four bytes, aligned to four. -/
def word32 (n : String) : Field := ⟨n, 4, 4⟩

/-- A field that is itself a structure. -/
def nested (n : String) (fs : List Field) : Field := ⟨n, structSize fs, structAlign fs⟩

/-- An array field of `k` elements of 32 bits. -/
def array32 (n : String) (k : Nat) : Field := ⟨n, k * 4, 4⟩

/-- Layout of the Go type `Rect`: `Left int32; Top int32; Width uint32; Height uint32`. -/
def Rect.layout : List Field :=
  [word32 "Left", word32 "Top", word32 "Width", word32 "Height"]

/-- Layout of the Go type `Fract`: `Numerator uint32; Denominator uint32`. -/
def Fract.layout : List Field := [word32 "Numerator", word32 "Denominator"]

/-- Layout of the Go type `CropCapability`: `StreamType uint32; Bounds Rect;
DefaultRect Rect; PixelAspect Fract; _ [4]uint32`. -/
def CropCapability.layout : List Field :=
  [word32 "StreamType", nested "Bounds" Rect.layout, nested "DefaultRect" Rect.layout,
   nested "PixelAspect" Fract.layout, array32 "_" 4]

/-- The kernel structure `v4l2_rect` as the included header
`linux/videodev2.h` declares it:
`__s32 left; __s32 top; __u32 width; __u32 height`. -/
def v4l2_rect.layout : List Field :=
  [word32 "left", word32 "top", word32 "width", word32 "height"]

/-- The kernel structure `v4l2_fract` of `linux/videodev2.h`:
`__u32 numerator; __u32 denominator`. -/
def v4l2_fract.layout : List Field := [word32 "numerator", word32 "denominator"]

/-- The kernel structure `v4l2_cropcap` as `linux/videodev2.h` declares it
(the header `crop.go` includes and whose declaration its comment links to):
`__u32 type; struct v4l2_rect bounds; struct v4l2_rect defrect;
struct v4l2_fract pixelaspect`. It has no reserved field. -/
def v4l2_cropcap.layout : List Field :=
  [word32 "type", nested "bounds" v4l2_rect.layout, nested "defrect" v4l2_rect.layout,
   nested "pixelaspect" v4l2_fract.layout]

/-- The kernel structure `v4l2_crop` of `linux/videodev2.h`:
`__u32 type; struct v4l2_rect c`. -/
def v4l2_crop.layout : List Field := [word32 "type", nested "c" v4l2_rect.layout]

/-! ## Values -/

/-- Go `Rect`. `Left` and `Top` are `int32`, `Width` and `Height` are `uint32`. -/
structure Rect where
  Left : Int
  Top : Int
  Width : Nat
  Height : Nat
  deriving DecidableEq, Repr

/-- Go `Fract`: two `uint32`. -/
structure Fract where
  Numerator : Nat
  Denominator : Nat
  deriving DecidableEq, Repr

/-- Go `CropCapability`. `Blank` is the unnamed trailing field `_ [4]uint32`. -/
structure CropCapability where
  StreamType : Nat
  Bounds : Rect
  DefaultRect : Rect
  PixelAspect : Fract
  Blank : List Nat
  deriving DecidableEq, Repr

/-- The zero value `CropCapability{}`. -/
def CropCapability.zero : CropCapability :=
  ⟨0, ⟨0, 0, 0, 0⟩, ⟨0, 0, 0, 0⟩, ⟨0, 0⟩, [0, 0, 0, 0]⟩

/-- A `Rect` whose fields fit their Go types. -/
def Rect.InRange (r : Rect) : Prop :=
  -(2 ^ 31 : Int) ≤ r.Left ∧ r.Left < 2 ^ 31 ∧ -(2 ^ 31 : Int) ≤ r.Top ∧ r.Top < 2 ^ 31 ∧
    r.Width < 2 ^ 32 ∧ r.Height < 2 ^ 32

instance (r : Rect) : Decidable r.InRange := by unfold Rect.InRange; infer_instance

/-- C `struct v4l2_rect` as a value. -/
structure v4l2_rect where
  left : Int
  top : Int
  width : Nat
  height : Nat
  deriving DecidableEq, Repr

/-- A C rectangle whose fields fit their types. -/
def v4l2_rect.InRange (x : v4l2_rect) : Prop :=
  -(2 ^ 31 : Int) ≤ x.left ∧ x.left < 2 ^ 31 ∧ -(2 ^ 31 : Int) ≤ x.top ∧ x.top < 2 ^ 31 ∧
    x.width < 2 ^ 32 ∧ x.height < 2 ^ 32

/-- C `struct v4l2_fract` as a value. -/
structure v4l2_fract where
  numerator : Nat
  denominator : Nat
  deriving DecidableEq, Repr

/-- C `struct v4l2_cropcap` as a value. -/
structure v4l2_cropcap where
  type : Nat
  bounds : v4l2_rect
  defrect : v4l2_rect
  pixelaspect : v4l2_fract
  deriving DecidableEq, Repr

/-- C `struct v4l2_crop` as a value. -/
structure v4l2_crop where
  type : Nat
  c : v4l2_rect
  deriving DecidableEq, Repr

/-! ## Memory -/

/-- Byte-addressed memory: the byte stored at each address. -/
abbrev Mem := Nat → Nat

/-- The order of the bytes of a 32-bit word in memory. -/
inductive ByteOrder where
  | little
  | big
  deriving DecidableEq, Repr

/-- The four bytes of the 32-bit word `w`, in memory order. -/
def encode32 (bo : ByteOrder) (w : Nat) : List Nat :=
  match bo with
  | .little => [w % 256, w / 256 % 256, w / 65536 % 256, w / 16777216 % 256]
  | .big => [w / 16777216 % 256, w / 65536 % 256, w / 256 % 256, w % 256]

/-- The 32-bit word whose bytes, in memory order, are `b0 b1 b2 b3`. -/
def decode32 (bo : ByteOrder) (b0 b1 b2 b3 : Nat) : Nat :=
  match bo with
  | .little => b0 + 256 * b1 + 65536 * b2 + 16777216 * b3
  | .big => b3 + 256 * b2 + 65536 * b1 + 16777216 * b0

/-- Writes the bytes `bs` at the addresses `a, a+1, ...`. -/
def Mem.store (m : Mem) (a : Nat) (bs : List Nat) : Mem :=
  fun x => if a ≤ x ∧ x < a + bs.length then bs.getD (x - a) 0 % 256 else m x

/-- The byte at address `a`. -/
def Mem.byte (m : Mem) (a : Nat) : Nat := m a % 256

/-- The `n` bytes at the addresses `a, ..., a+n-1`. -/
def Mem.load (m : Mem) (a n : Nat) : List Nat := (List.range n).map (fun i => m.byte (a + i))

/-- Writes an unsigned 32-bit word at address `a`. -/
def Mem.storeU32 (bo : ByteOrder) (m : Mem) (a w : Nat) : Mem :=
  m.store a (encode32 bo (w % 2 ^ 32))

/-- Reads the unsigned 32-bit word at address `a`. -/
def Mem.loadU32 (bo : ByteOrder) (m : Mem) (a : Nat) : Nat :=
  decode32 bo (m.byte a) (m.byte (a + 1)) (m.byte (a + 2)) (m.byte (a + 3))

/-- The 32-bit pattern of a signed value (two's complement). -/
def toU32 (i : Int) : Nat := (i % 2 ^ 32).toNat

/-- The signed value of a 32-bit pattern (two's complement). -/
def toS32 (w : Nat) : Int := if w % 2 ^ 32 < 2 ^ 31 then (w % 2 ^ 32 : Nat) else (w % 2 ^ 32 : Nat) - 2 ^ 32

/-- Writes a signed 32-bit word at address `a`. -/
def Mem.storeS32 (bo : ByteOrder) (m : Mem) (a : Nat) (i : Int) : Mem :=
  Mem.storeU32 bo m a (toU32 i)

/-- Reads the signed 32-bit word at address `a`. -/
def Mem.loadS32 (bo : ByteOrder) (m : Mem) (a : Nat) : Int := toS32 (Mem.loadU32 bo m a)

/-! ### Go values in memory -/

/-- Reads a Go `Rect` at address `a`, field by field at the offsets of `Rect.layout`. -/
def Rect.load (bo : ByteOrder) (m : Mem) (a : Nat) : Rect :=
  { Left := Mem.loadS32 bo m (a + offsetOf Rect.layout "Left")
    Top := Mem.loadS32 bo m (a + offsetOf Rect.layout "Top")
    Width := Mem.loadU32 bo m (a + offsetOf Rect.layout "Width")
    Height := Mem.loadU32 bo m (a + offsetOf Rect.layout "Height") }

/-- Writes a Go `Rect` at address `a`. -/
def Rect.store (bo : ByteOrder) (m : Mem) (a : Nat) (r : Rect) : Mem :=
  let m1 := Mem.storeS32 bo m (a + offsetOf Rect.layout "Left") r.Left
  let m2 := Mem.storeS32 bo m1 (a + offsetOf Rect.layout "Top") r.Top
  let m3 := Mem.storeU32 bo m2 (a + offsetOf Rect.layout "Width") r.Width
  Mem.storeU32 bo m3 (a + offsetOf Rect.layout "Height") r.Height

/-- Reads a Go `Fract` at address `a`. -/
def Fract.load (bo : ByteOrder) (m : Mem) (a : Nat) : Fract :=
  { Numerator := Mem.loadU32 bo m (a + offsetOf Fract.layout "Numerator")
    Denominator := Mem.loadU32 bo m (a + offsetOf Fract.layout "Denominator") }

/-- Reads a Go `CropCapability` at address `a`: the conversion
`*(*CropCapability)(p)` of a pointer `p`. All `structSize CropCapability.layout`
bytes from `a` on are read, the unnamed field included. -/
def CropCapability.load (bo : ByteOrder) (m : Mem) (a : Nat) : CropCapability :=
  { StreamType := Mem.loadU32 bo m (a + offsetOf CropCapability.layout "StreamType")
    Bounds := Rect.load bo m (a + offsetOf CropCapability.layout "Bounds")
    DefaultRect := Rect.load bo m (a + offsetOf CropCapability.layout "DefaultRect")
    PixelAspect := Fract.load bo m (a + offsetOf CropCapability.layout "PixelAspect")
    Blank := (List.range 4).map
      (fun i => Mem.loadU32 bo m (a + offsetOf CropCapability.layout "_" + 4 * i)) }

/-! ### Kernel structures in memory -/

/-- Reads a C `struct v4l2_rect` at address `a`. -/
def v4l2_rect.load (bo : ByteOrder) (m : Mem) (a : Nat) : v4l2_rect :=
  { left := Mem.loadS32 bo m (a + offsetOf v4l2_rect.layout "left")
    top := Mem.loadS32 bo m (a + offsetOf v4l2_rect.layout "top")
    width := Mem.loadU32 bo m (a + offsetOf v4l2_rect.layout "width")
    height := Mem.loadU32 bo m (a + offsetOf v4l2_rect.layout "height") }

/-- Writes a C `struct v4l2_rect` at address `a`. -/
def v4l2_rect.store (bo : ByteOrder) (m : Mem) (a : Nat) (r : v4l2_rect) : Mem :=
  let m1 := Mem.storeS32 bo m (a + offsetOf v4l2_rect.layout "left") r.left
  let m2 := Mem.storeS32 bo m1 (a + offsetOf v4l2_rect.layout "top") r.top
  let m3 := Mem.storeU32 bo m2 (a + offsetOf v4l2_rect.layout "width") r.width
  Mem.storeU32 bo m3 (a + offsetOf v4l2_rect.layout "height") r.height

/-- Reads a C `struct v4l2_fract` at address `a`. -/
def v4l2_fract.load (bo : ByteOrder) (m : Mem) (a : Nat) : v4l2_fract :=
  { numerator := Mem.loadU32 bo m (a + offsetOf v4l2_fract.layout "numerator")
    denominator := Mem.loadU32 bo m (a + offsetOf v4l2_fract.layout "denominator") }

/-- Reads a C `struct v4l2_cropcap` at address `a`. -/
def v4l2_cropcap.load (bo : ByteOrder) (m : Mem) (a : Nat) : v4l2_cropcap :=
  { type := Mem.loadU32 bo m (a + offsetOf v4l2_cropcap.layout "type")
    bounds := v4l2_rect.load bo m (a + offsetOf v4l2_cropcap.layout "bounds")
    defrect := v4l2_rect.load bo m (a + offsetOf v4l2_cropcap.layout "defrect")
    pixelaspect := v4l2_fract.load bo m (a + offsetOf v4l2_cropcap.layout "pixelaspect") }

/-- Reads a C `struct v4l2_crop` at address `a`. -/
def v4l2_crop.load (bo : ByteOrder) (m : Mem) (a : Nat) : v4l2_crop :=
  { type := Mem.loadU32 bo m (a + offsetOf v4l2_crop.layout "type")
    c := v4l2_rect.load bo m (a + offsetOf v4l2_crop.layout "c") }

/-! ## Errors and formatting -/

/-- A Go `error` value: an error with a message of its own, or the value
`fmt.Errorf` builds for a format with the verb `%w`, which keeps its operand. -/
inductive GoError where
  | plain (msg : String)
  | wrapError (msg : String) (err : GoError)
  deriving DecidableEq, Repr

/-- The method `Error()`: the message. -/
def GoError.Error : GoError → String
  | .plain msg => msg
  | .wrapError msg _ => msg

/-- The method `Unwrap()`: the error this one wraps, if any. -/
def GoError.Unwrap : GoError → Option GoError
  | .plain _ => none
  | .wrapError _ err => some err

/-- An operand of `fmt.Sprintf` or `fmt.Errorf`. -/
inductive Arg where
  | int (i : Int)
  | uint (n : Nat)
  | err (e : GoError)
  deriving DecidableEq, Repr

/-- Decimal rendering of an unsigned integer (the verb `%d`). -/
def fmtUint (n : Nat) : List Char := (Nat.repr n).data

/-- Decimal rendering of a signed integer (the verb `%d`): a minus sign
before the digits of the absolute value when the value is negative. -/
def fmtInt (i : Int) : List Char :=
  if i < 0 then '-' :: fmtUint i.natAbs else fmtUint i.natAbs

/-- The text an operand is rendered as. -/
def Arg.render : Arg → List Char
  | .int i => fmtInt i
  | .uint n => fmtUint n
  | .err e => e.Error.data

/-- The part of `fmt.Sprintf` that `crop.go` uses, on the characters of the
format; the flag says that the character before was a `%`. The verbs `%d`
and `%w` consume the next operand and render it, a verb with no operand left
renders as `%!d(MISSING)`, `%%` is a percent sign, and every character outside
a verb is copied (other verbs, which `crop.go` does not use, are copied too;
operands beyond the verbs, which `crop.go` never passes, are left out). -/
def sprintfChars : Bool → List Char → List Arg → List Char
  | false, [], _ => []
  | true, [], _ => "%!(NOVERB)".data
  | false, c :: t, args =>
    if c = '%' then sprintfChars true t args else c :: sprintfChars false t args
  | true, v :: t, args =>
    if v = 'd' ∨ v = 'w' then
      match args with
      | [] => '%' :: '!' :: v :: ("(MISSING)".data ++ sprintfChars false t [])
      | a :: rest => a.render ++ sprintfChars false t rest
    else if v = '%' then '%' :: sprintfChars false t args
    else '%' :: v :: sprintfChars false t args

/-- Go `fmt.Sprintf`. -/
def Sprintf (format : String) (args : List Arg) : String :=
  ⟨sprintfChars false format.data args⟩

/-- The operand of the first verb `%w` of the format, when it is an error;
the flag says that the character before was a `%`. -/
def wrapOperand : Bool → List Char → List Arg → Option GoError
  | _, [], _ => none
  | false, c :: t, args =>
    if c = '%' then wrapOperand true t args else wrapOperand false t args
  | true, v :: t, args =>
    if v = 'w' then
      match args with
      | .err e :: _ => some e
      | _ => none
    else if v = 'd' then wrapOperand false t args.tail
    else wrapOperand false t args

/-- Go `fmt.Errorf`: the message is the formatted text; with a verb `%w` whose
operand is an error the result wraps that error. -/
def Errorf (format : String) (args : List Arg) : GoError :=
  match wrapOperand false format.data args with
  | some e => .wrapError (Sprintf format args) e
  | none => .plain (Sprintf format args)

/-! ## The dispatch primitive -/

/-- Modelled from the spec: the constant `BufTypeVideoCapture` is declared
outside `crop.go`; it is the video-capture stream type of the kernel ABI,
`V4L2_BUF_TYPE_VIDEO_CAPTURE = 1`. -/
def BufTypeVideoCapture : Nat := 1

/-- The kernel's command-code encoding `_IOC(dir, type, nr, size)` of
`asm-generic/ioctl.h`. -/
def ioc (dir type nr size : Nat) : Nat :=
  (dir <<< 30) ||| (type <<< 8) ||| (nr <<< 0) ||| (size <<< 16)

/-- The command code `VIDIOC_CROPCAP` of `linux/videodev2.h`,
`_IOWR('V', 58, struct v4l2_cropcap)`: read and write; bits 16 to 29 hold
the size of the structure. -/
def VIDIOC_CROPCAP : Nat := ioc 3 'V'.toNat 58 (structSize v4l2_cropcap.layout)

/-- The command code `VIDIOC_S_CROP` of `linux/videodev2.h`,
`_IOW('V', 60, struct v4l2_crop)`: write only. -/
def VIDIOC_S_CROP : Nat := ioc 1 'V'.toNat 60 (structSize v4l2_crop.layout)

/-- The dispatch primitive, declared outside `crop.go`: given the device
handle, the command code, the address of the buffer and the memory, it
returns nil or an error, and the memory as the call leaves it. -/
abbrev Dispatch := Nat → Nat → Nat → Mem → Option GoError × Mem

/-- One invocation of the dispatch primitive: its three arguments and the
memory at the time of the call. -/
structure Call where
  fd : Nat
  req : Nat
  arg : Nat
  mem : Mem

/-- The state the operations run in: the memory and the invocations of the
dispatch primitive so far, oldest first. -/
structure Machine where
  mem : Mem
  calls : List Call

/-- The call `send(fd, req, arg)`: runs the dispatch primitive `d` and records
the invocation. -/
def send (d : Dispatch) (fd req arg : Nat) (s : Machine) : Option GoError × Machine :=
  ((d fd req arg s.mem).1,
   { mem := (d fd req arg s.mem).2, calls := s.calls ++ [⟨fd, req, arg, s.mem⟩] })

/-! ## The operations of `crop.go` -/

/-- The memory as `GetCropCapability` hands it to the dispatch primitive:
the variable `cap` at address `cap`, zero-initialised, with its stream type
set.
```
var cap C.struct_v4l2_cropcap
cap._type = C.uint(BufTypeVideoCapture)
``` -/
def capRequest (bo : ByteOrder) (cap : Nat) (m : Mem) : Mem :=
  Mem.storeU32 bo (m.store cap (List.replicate (structSize v4l2_cropcap.layout) 0))
    (cap + offsetOf v4l2_cropcap.layout "type") BufTypeVideoCapture

/-- `GetCropCapability(fd)`. `cap` is the address of the local variable
`cap` of type `C.struct_v4l2_cropcap`. -/
def GetCropCapability (d : Dispatch) (bo : ByteOrder) (fd : Nat) (cap : Nat) (s : Machine) :
    (CropCapability × Option GoError) × Machine :=
  -- send(fd, C.VIDIOC_CROPCAP, uintptr(unsafe.Pointer(&cap)))
  match send d fd VIDIOC_CROPCAP cap { s with mem := capRequest bo cap s.mem } with
  | (some err, s') => ((CropCapability.zero, some (Errorf "crop capability: %w" [.err err])), s')
  -- *(*CropCapability)(unsafe.Pointer(&cap))
  | (none, s') => ((CropCapability.load bo s'.mem cap, none), s')

/-- The memory as `SetCropRect` hands it to the dispatch primitive: the
parameter `r` at address `pr`, and the variable `crop` at address `crop`,
zero-initialised, with its stream type set and its rectangle read through
the pointer to `r`.
```
var crop C.struct_v4l2_crop
crop._type = C.uint(BufTypeVideoCapture)
crop.c = *(*C.struct_v4l2_rect)(unsafe.Pointer(&r))
``` -/
def cropRequest (bo : ByteOrder) (r : Rect) (pr crop : Nat) (m : Mem) : Mem :=
  let m0 := Rect.store bo m pr r
  let m1 := m0.store crop (List.replicate (structSize v4l2_crop.layout) 0)
  let m2 := Mem.storeU32 bo m1 (crop + offsetOf v4l2_crop.layout "type") BufTypeVideoCapture
  v4l2_rect.store bo m2 (crop + offsetOf v4l2_crop.layout "c") (v4l2_rect.load bo m2 pr)

/-- `SetCropRect(fd, r)`. `pr` is the address of the parameter `r` and
`crop` the address of the local variable `crop` of type `C.struct_v4l2_crop`. -/
def SetCropRect (d : Dispatch) (bo : ByteOrder) (fd : Nat) (r : Rect) (pr crop : Nat)
    (s : Machine) : Option GoError × Machine :=
  -- send(fd, C.VIDIOC_S_CROP, uintptr(unsafe.Pointer(&crop)))
  match send d fd VIDIOC_S_CROP crop { s with mem := cropRequest bo r pr crop s.mem } with
  | (some err, s') => (some (Errorf "set crop: %w" [.err err]), s')
  | (none, s') => (none, s')

/-- What the dispatch primitive returns to `GetCropCapability`: nil or an error. -/
def capOutcome (d : Dispatch) (bo : ByteOrder) (fd cap : Nat) (m : Mem) : Option GoError :=
  (d fd VIDIOC_CROPCAP cap (capRequest bo cap m)).1

/-- The memory the dispatch primitive leaves behind for `GetCropCapability`. -/
def capReply (d : Dispatch) (bo : ByteOrder) (fd cap : Nat) (m : Mem) : Mem :=
  (d fd VIDIOC_CROPCAP cap (capRequest bo cap m)).2

/-- What the dispatch primitive returns to `SetCropRect`: nil or an error. -/
def cropOutcome (d : Dispatch) (bo : ByteOrder) (fd : Nat) (r : Rect) (pr crop : Nat)
    (m : Mem) : Option GoError :=
  (d fd VIDIOC_S_CROP crop (cropRequest bo r pr crop m)).1

/-- The method `String()` of `CropCapability`. -/
def CropCapability.String (c : CropCapability) : String :=
  Sprintf "default:\x7btop=%d, left=%d, width=%d,height=%d\x7d;  bounds:\x7btop=%d, left=%d, width=%d,height=%d\x7d; pixel-aspect\x7b%d:%d\x7d"
    [.int c.DefaultRect.Top,
     .int c.DefaultRect.Left,
     .uint c.DefaultRect.Width,
     .uint c.DefaultRect.Height,
     .int c.Bounds.Top,
     .int c.Bounds.Left,
     .uint c.Bounds.Width,
     .uint c.Bounds.Height,
     .uint c.PixelAspect.Numerator,
     .uint c.PixelAspect.Denominator]

/-- The number of positions of the text at which `pat` occurs. -/
def occurrences (pat : List Char) : List Char → Nat
  | [] => 0
  | c :: t => (if pat.isPrefixOf (c :: t) then 1 else 0) + occurrences pat t

/-- The value of a decimal digit character. -/
def digitVal (c : Char) : Nat := c.toNat - 48

/-- The number a list of decimal digits stands for, most significant first. -/
def decValue (l : List Char) : Nat := l.foldl (fun a c => 10 * a + digitVal c) 0

/-- A character of a rendered number: a decimal digit or the minus sign. -/
def isNum (c : Char) : Bool := c.isDigit || c == '-'

/-! ## Simulated dispatch primitives -/

/-- Writes a C `struct v4l2_cropcap` at address `a`. -/
def v4l2_cropcap.store (bo : ByteOrder) (m : Mem) (a : Nat) (x : v4l2_cropcap) : Mem :=
  let m1 := Mem.storeU32 bo m (a + offsetOf v4l2_cropcap.layout "type") x.type
  let m2 := v4l2_rect.store bo m1 (a + offsetOf v4l2_cropcap.layout "bounds") x.bounds
  let m3 := v4l2_rect.store bo m2 (a + offsetOf v4l2_cropcap.layout "defrect") x.defrect
  let m4 := Mem.storeU32 bo m3
    (a + offsetOf v4l2_cropcap.layout "pixelaspect" + offsetOf v4l2_fract.layout "numerator")
    x.pixelaspect.numerator
  Mem.storeU32 bo m4
    (a + offsetOf v4l2_cropcap.layout "pixelaspect" + offsetOf v4l2_fract.layout "denominator")
    x.pixelaspect.denominator

/-- A dispatch primitive that fails with "device busy" and leaves the memory as it is. -/
def busyDispatch : Dispatch := fun _ _ _ m => (some (.plain "device busy"), m)

/-- A dispatch primitive that succeeds and leaves the memory as it is. -/
def idleDispatch : Dispatch := fun _ _ _ m => (none, m)

/-- A dispatch primitive that succeeds and writes `x` into the buffer, as a
driver answering a capability query does. -/
def replyDispatch (bo : ByteOrder) (x : v4l2_cropcap) : Dispatch :=
  fun _ _ arg m => (none, v4l2_cropcap.store bo m arg x)

/-- The reply of a driver with a 1920 by 1080 sensor and square pixels. -/
def fullHD : v4l2_cropcap := ⟨1, ⟨0, 0, 1920, 1080⟩, ⟨0, 0, 1920, 1080⟩, ⟨1, 1⟩⟩

/-- A reply with negative offsets and a pixel aspect whose denominator is 0. -/
def degenerate : v4l2_cropcap := ⟨1, ⟨-8, -4, 640, 480⟩, ⟨0, 0, 640, 480⟩, ⟨1, 0⟩⟩

/-- A value with negative offsets and the largest 32-bit sizes. -/
def extremes : CropCapability :=
  ⟨1, ⟨-2147483648, -1, 4294967295, 0⟩, ⟨-7, 2147483647, 1920, 1080⟩, ⟨4294967295, 0⟩,
    [0, 0, 0, 0]⟩

/-- Memory that holds zero everywhere. -/
def zeroMem : Mem := fun _ => 0

/-- Memory that holds `0xAA` everywhere. -/
def dirtyMem : Mem := fun _ => 0xAA

/-- A dispatch primitive that does what `d` does and counts its own
invocations: every invocation adds one to the memory cell at address `ctr`. -/
def counting (d : Dispatch) (ctr : Nat) : Dispatch :=
  fun fd req arg m =>
    ((d fd req arg m).1, fun x => if x = ctr then m ctr + 1 else (d fd req arg m).2 x)

/-! ## Layout facts -/

theorem size_Rect : structSize Rect.layout = 16 := by decide
theorem size_Fract : structSize Fract.layout = 8 := by decide
theorem size_CropCapability : structSize CropCapability.layout = 60 := by decide
theorem size_v4l2_rect : structSize v4l2_rect.layout = 16 := by decide
theorem size_v4l2_fract : structSize v4l2_fract.layout = 8 := by decide
theorem size_v4l2_cropcap : structSize v4l2_cropcap.layout = 44 := by decide
theorem size_v4l2_crop : structSize v4l2_crop.layout = 20 := by decide

theorem offsets_Rect :
    offsetsFrom 0 Rect.layout = [("Left", 0), ("Top", 4), ("Width", 8), ("Height", 12)] := by
  decide

theorem offsets_CropCapability :
    offsetsFrom 0 CropCapability.layout =
      [("StreamType", 0), ("Bounds", 4), ("DefaultRect", 20), ("PixelAspect", 36), ("_", 44)] := by
  decide

theorem offsets_v4l2_cropcap :
    offsetsFrom 0 v4l2_cropcap.layout =
      [("type", 0), ("bounds", 4), ("defrect", 20), ("pixelaspect", 36)] := by
  decide

theorem offsets_v4l2_crop : offsetsFrom 0 v4l2_crop.layout = [("type", 0), ("c", 4)] := by
  decide

theorem off_Left : offsetOf Rect.layout "Left" = 0 := by decide
theorem off_Top : offsetOf Rect.layout "Top" = 4 := by decide
theorem off_Width : offsetOf Rect.layout "Width" = 8 := by decide
theorem off_Height : offsetOf Rect.layout "Height" = 12 := by decide
theorem off_Numerator : offsetOf Fract.layout "Numerator" = 0 := by decide
theorem off_Denominator : offsetOf Fract.layout "Denominator" = 4 := by decide
theorem off_StreamType : offsetOf CropCapability.layout "StreamType" = 0 := by decide
theorem off_Bounds : offsetOf CropCapability.layout "Bounds" = 4 := by decide
theorem off_DefaultRect : offsetOf CropCapability.layout "DefaultRect" = 20 := by decide
theorem off_PixelAspect : offsetOf CropCapability.layout "PixelAspect" = 36 := by decide
theorem off_Blank : offsetOf CropCapability.layout "_" = 44 := by decide
theorem off_left : offsetOf v4l2_rect.layout "left" = 0 := by decide
theorem off_top : offsetOf v4l2_rect.layout "top" = 4 := by decide
theorem off_width : offsetOf v4l2_rect.layout "width" = 8 := by decide
theorem off_height : offsetOf v4l2_rect.layout "height" = 12 := by decide
theorem off_numerator : offsetOf v4l2_fract.layout "numerator" = 0 := by decide
theorem off_denominator : offsetOf v4l2_fract.layout "denominator" = 4 := by decide
theorem off_type : offsetOf v4l2_cropcap.layout "type" = 0 := by decide
theorem off_bounds : offsetOf v4l2_cropcap.layout "bounds" = 4 := by decide
theorem off_defrect : offsetOf v4l2_cropcap.layout "defrect" = 20 := by decide
theorem off_pixelaspect : offsetOf v4l2_cropcap.layout "pixelaspect" = 36 := by decide
theorem off_crop_type : offsetOf v4l2_crop.layout "type" = 0 := by decide
theorem off_crop_c : offsetOf v4l2_crop.layout "c" = 4 := by decide

theorem VIDIOC_CROPCAP_val : VIDIOC_CROPCAP = 0xC02C563A := by decide
theorem VIDIOC_S_CROP_val : VIDIOC_S_CROP = 0x4014563C := by decide

/-! ## Memory facts -/

theorem length_encode32 (bo : ByteOrder) (w : Nat) : (encode32 bo w).length = 4 := by
  cases bo <;> rfl

theorem byte_store (m : Mem) (a : Nat) (bs : List Nat) (x : Nat) :
    (m.store a bs).byte x =
      if a ≤ x ∧ x < a + bs.length then bs.getD (x - a) 0 % 256 else m.byte x := by
  unfold Mem.byte Mem.store
  split <;> simp

theorem byte_lt (m : Mem) (a : Nat) : m.byte a < 256 := Nat.mod_lt _ (by decide)

theorem loadU32_lt (bo : ByteOrder) (m : Mem) (a : Nat) : Mem.loadU32 bo m a < 2 ^ 32 := by
  have h0 := byte_lt m a
  have h1 := byte_lt m (a + 1)
  have h2 := byte_lt m (a + 2)
  have h3 := byte_lt m (a + 3)
  unfold Mem.loadU32 decode32
  cases bo <;> simp only <;> omega

theorem loadU32_store_other (bo : ByteOrder) (m : Mem) (a : Nat) (bs : List Nat) (b : Nat)
    (h : b + 4 ≤ a ∨ a + bs.length ≤ b) :
    Mem.loadU32 bo (m.store a bs) b = Mem.loadU32 bo m b := by
  unfold Mem.loadU32
  rw [byte_store, byte_store, byte_store, byte_store]
  rw [if_neg (by omega), if_neg (by omega), if_neg (by omega), if_neg (by omega)]

theorem loadU32_storeU32_other (bo : ByteOrder) (m : Mem) (a w b : Nat)
    (h : b + 4 ≤ a ∨ a + 4 ≤ b) :
    Mem.loadU32 bo (Mem.storeU32 bo m a w) b = Mem.loadU32 bo m b := by
  unfold Mem.storeU32
  exact loadU32_store_other bo m a _ b (by rw [length_encode32]; exact h)

theorem loadU32_storeU32_same (bo : ByteOrder) (m : Mem) (a w : Nat) :
    Mem.loadU32 bo (Mem.storeU32 bo m a w) a = w % 2 ^ 32 := by
  unfold Mem.loadU32 Mem.storeU32
  rw [byte_store, byte_store, byte_store, byte_store, length_encode32]
  rw [if_pos (by omega), if_pos (by omega), if_pos (by omega), if_pos (by omega)]
  have e0 : a - a = 0 := by omega
  have e1 : a + 1 - a = 1 := by omega
  have e2 : a + 2 - a = 2 := by omega
  have e3 : a + 3 - a = 3 := by omega
  rw [e0, e1, e2, e3]
  cases bo <;> simp [encode32, decode32] <;> omega

theorem getD_replicate_zero (n i : Nat) : (List.replicate n 0).getD i 0 = 0 := by
  induction n generalizing i with
  | zero => rfl
  | succ n ih =>
    cases i with
    | zero => rfl
    | succ i => simp [List.replicate_succ]

theorem loadU32_store_zeros (bo : ByteOrder) (m : Mem) (a n b : Nat)
    (h1 : a ≤ b) (h2 : b + 4 ≤ a + n) :
    Mem.loadU32 bo (m.store a (List.replicate n 0)) b = 0 := by
  unfold Mem.loadU32
  rw [byte_store, byte_store, byte_store, byte_store, List.length_replicate]
  rw [if_pos (by omega), if_pos (by omega), if_pos (by omega), if_pos (by omega)]
  cases bo <;> simp [decode32, getD_replicate_zero]

theorem toU32_lt (i : Int) : toU32 i < 2 ^ 32 := by
  unfold toU32
  omega

theorem toS32_toU32 (i : Int) (h1 : -(2 ^ 31 : Int) ≤ i) (h2 : i < 2 ^ 31) :
    toS32 (toU32 i) = i := by
  unfold toS32 toU32
  split <;> omega

theorem loadS32_storeS32_same (bo : ByteOrder) (m : Mem) (a : Nat) (i : Int)
    (h1 : -(2 ^ 31 : Int) ≤ i) (h2 : i < 2 ^ 31) :
    Mem.loadS32 bo (Mem.storeS32 bo m a i) a = i := by
  unfold Mem.loadS32 Mem.storeS32
  rw [loadU32_storeU32_same, Nat.mod_eq_of_lt (toU32_lt i), toS32_toU32 i h1 h2]

/-! ## Error values -/

theorem data_append (a b : String) : (a ++ b).data = a.data ++ b.data := rfl

theorem Errorf_capability (e : GoError) :
    Errorf "crop capability: %w" [.err e] =
      .wrapError ("crop capability: " ++ e.Error) e := by
  have hw : wrapOperand false "crop capability: %w".data [.err e] = some e := by rfl
  have hs : Sprintf "crop capability: %w" [.err e] = "crop capability: " ++ e.Error := by
    apply String.ext
    rw [data_append]
    show "crop capability: ".data ++ (e.Error.data ++ []) = _
    rw [List.append_nil]
  unfold Errorf
  rw [hw, hs]

theorem Errorf_setCrop (e : GoError) :
    Errorf "set crop: %w" [.err e] = .wrapError ("set crop: " ++ e.Error) e := by
  have hw : wrapOperand false "set crop: %w".data [.err e] = some e := by rfl
  have hs : Sprintf "set crop: %w" [.err e] = "set crop: " ++ e.Error := by
    apply String.ext
    rw [data_append]
    show "set crop: ".data ++ (e.Error.data ++ []) = _
    rw [List.append_nil]
  unfold Errorf
  rw [hw, hs]

/-! ## Rectangles in memory -/

theorem loadS32_storeU32_other (bo : ByteOrder) (m : Mem) (a w b : Nat)
    (h : b + 4 ≤ a ∨ a + 4 ≤ b) :
    Mem.loadS32 bo (Mem.storeU32 bo m a w) b = Mem.loadS32 bo m b := by
  unfold Mem.loadS32
  rw [loadU32_storeU32_other bo m a w b h]

theorem loadS32_store_other (bo : ByteOrder) (m : Mem) (a : Nat) (bs : List Nat) (b : Nat)
    (h : b + 4 ≤ a ∨ a + bs.length ≤ b) :
    Mem.loadS32 bo (m.store a bs) b = Mem.loadS32 bo m b := by
  unfold Mem.loadS32
  rw [loadU32_store_other bo m a bs b h]

theorem loadU32_storeU32_same_lt (bo : ByteOrder) (m : Mem) (a w : Nat) (h : w < 2 ^ 32) :
    Mem.loadU32 bo (Mem.storeU32 bo m a w) a = w := by
  rw [loadU32_storeU32_same, Nat.mod_eq_of_lt h]

theorem loadS32_storeU32_same (bo : ByteOrder) (m : Mem) (a : Nat) (i : Int)
    (h1 : -(2 ^ 31 : Int) ≤ i) (h2 : i < 2 ^ 31) :
    Mem.loadS32 bo (Mem.storeU32 bo m a (toU32 i)) a = i :=
  loadS32_storeS32_same bo m a i h1 h2

theorem v4l2_rect_load_store (bo : ByteOrder) (m : Mem) (a : Nat) (x : v4l2_rect)
    (hx : x.InRange) : v4l2_rect.load bo (v4l2_rect.store bo m a x) a = x := by
  obtain ⟨h1, h2, h3, h4, h5, h6⟩ := hx
  unfold v4l2_rect.load v4l2_rect.store
  simp only [off_left, off_top, off_width, off_height, Mem.storeS32]
  have e1 : Mem.loadS32 bo (Mem.storeU32 bo (Mem.storeU32 bo (Mem.storeU32 bo
      (Mem.storeU32 bo m (a + 0) (toU32 x.left)) (a + 4) (toU32 x.top)) (a + 8) x.width)
      (a + 12) x.height) (a + 0) = x.left := by
    rw [loadS32_storeU32_other bo _ (a + 12) _ (a + 0) (by omega),
      loadS32_storeU32_other bo _ (a + 8) _ (a + 0) (by omega),
      loadS32_storeU32_other bo _ (a + 4) _ (a + 0) (by omega),
      loadS32_storeU32_same bo m (a + 0) x.left h1 h2]
  have e2 : Mem.loadS32 bo (Mem.storeU32 bo (Mem.storeU32 bo (Mem.storeU32 bo
      (Mem.storeU32 bo m (a + 0) (toU32 x.left)) (a + 4) (toU32 x.top)) (a + 8) x.width)
      (a + 12) x.height) (a + 4) = x.top := by
    rw [loadS32_storeU32_other bo _ (a + 12) _ (a + 4) (by omega),
      loadS32_storeU32_other bo _ (a + 8) _ (a + 4) (by omega),
      loadS32_storeU32_same bo _ (a + 4) x.top h3 h4]
  have e3 : Mem.loadU32 bo (Mem.storeU32 bo (Mem.storeU32 bo (Mem.storeU32 bo
      (Mem.storeU32 bo m (a + 0) (toU32 x.left)) (a + 4) (toU32 x.top)) (a + 8) x.width)
      (a + 12) x.height) (a + 8) = x.width := by
    rw [loadU32_storeU32_other bo _ (a + 12) _ (a + 8) (by omega),
      loadU32_storeU32_same_lt bo _ (a + 8) x.width h5]
  have e4 : Mem.loadU32 bo (Mem.storeU32 bo (Mem.storeU32 bo (Mem.storeU32 bo
      (Mem.storeU32 bo m (a + 0) (toU32 x.left)) (a + 4) (toU32 x.top)) (a + 8) x.width)
      (a + 12) x.height) (a + 12) = x.height :=
    loadU32_storeU32_same_lt bo _ (a + 12) x.height h6
  rw [e1, e2, e3, e4]

theorem v4l2_rect_load_Rect_store (bo : ByteOrder) (m : Mem) (a : Nat) (r : Rect)
    (hr : r.InRange) :
    v4l2_rect.load bo (Rect.store bo m a r) a = ⟨r.Left, r.Top, r.Width, r.Height⟩ := by
  have h := v4l2_rect_load_store bo m a ⟨r.Left, r.Top, r.Width, r.Height⟩ hr
  unfold v4l2_rect.store at h
  unfold Rect.store
  simp only [off_left, off_top, off_width, off_height] at h
  simp only [off_Left, off_Top, off_Width, off_Height]
  exact h

theorem v4l2_rect_load_store_other (bo : ByteOrder) (m : Mem) (a : Nat) (bs : List Nat)
    (p : Nat) (h : p + 16 ≤ a ∨ a + bs.length ≤ p) :
    v4l2_rect.load bo (m.store a bs) p = v4l2_rect.load bo m p := by
  unfold v4l2_rect.load
  simp only [off_left, off_top, off_width, off_height]
  rw [loadS32_store_other bo m a bs (p + 0) (by omega),
    loadS32_store_other bo m a bs (p + 4) (by omega),
    loadU32_store_other bo m a bs (p + 8) (by omega),
    loadU32_store_other bo m a bs (p + 12) (by omega)]

theorem v4l2_rect_load_storeU32_other (bo : ByteOrder) (m : Mem) (a w p : Nat)
    (h : p + 16 ≤ a ∨ a + 4 ≤ p) :
    v4l2_rect.load bo (Mem.storeU32 bo m a w) p = v4l2_rect.load bo m p := by
  unfold Mem.storeU32
  exact v4l2_rect_load_store_other bo m a _ p (by rw [length_encode32]; exact h)

theorem loadU32_v4l2_rect_store_other (bo : ByteOrder) (m : Mem) (a : Nat) (x : v4l2_rect)
    (b : Nat) (h : b + 4 ≤ a ∨ a + 16 ≤ b) :
    Mem.loadU32 bo (v4l2_rect.store bo m a x) b = Mem.loadU32 bo m b := by
  unfold v4l2_rect.store
  simp only [off_left, off_top, off_width, off_height, Mem.storeS32]
  rw [loadU32_storeU32_other bo _ (a + 12) _ b (by omega),
    loadU32_storeU32_other bo _ (a + 8) _ b (by omega),
    loadU32_storeU32_other bo _ (a + 4) _ b (by omega),
    loadU32_storeU32_other bo _ (a + 0) _ b (by omega)]

/-! ## The request buffers -/

theorem capRequest_type (bo : ByteOrder) (cap : Nat) (m : Mem) :
    Mem.loadU32 bo (capRequest bo cap m) cap = BufTypeVideoCapture := by
  unfold capRequest
  rw [off_type, Nat.add_zero, loadU32_storeU32_same]
  decide

theorem cropRequest_type (bo : ByteOrder) (r : Rect) (pr crop : Nat) (m : Mem) :
    Mem.loadU32 bo (cropRequest bo r pr crop m) crop = BufTypeVideoCapture := by
  unfold cropRequest
  simp only [off_crop_type, off_crop_c, Nat.add_zero]
  rw [loadU32_v4l2_rect_store_other bo _ (crop + 4) _ crop (by omega), loadU32_storeU32_same]
  decide

theorem cropRequest_rect (bo : ByteOrder) (r : Rect) (pr crop : Nat) (m : Mem)
    (hr : r.InRange) (hd : pr + 16 ≤ crop ∨ crop + 20 ≤ pr) :
    v4l2_rect.load bo (cropRequest bo r pr crop m) (crop + 4) =
      ⟨r.Left, r.Top, r.Width, r.Height⟩ := by
  unfold cropRequest
  simp only [off_crop_type, off_crop_c, Nat.add_zero, size_v4l2_crop]
  rw [v4l2_rect_load_storeU32_other bo _ crop _ pr (by omega),
    v4l2_rect_load_store_other bo _ crop _ pr (by rw [List.length_replicate]; omega),
    v4l2_rect_load_Rect_store bo m pr r hr]
  exact v4l2_rect_load_store bo _ (crop + 4) _ hr

/-! ## The two operations -/

theorem GetCropCapability_calls (d : Dispatch) (bo : ByteOrder) (fd cap : Nat) (s : Machine) :
    (GetCropCapability d bo fd cap s).2.calls =
      s.calls ++ [⟨fd, VIDIOC_CROPCAP, cap, capRequest bo cap s.mem⟩] := by
  unfold GetCropCapability send
  cases (d fd VIDIOC_CROPCAP cap (capRequest bo cap s.mem)).1 <;> rfl

theorem GetCropCapability_fail (d : Dispatch) (bo : ByteOrder) (fd cap : Nat) (s : Machine)
    (e : GoError) (h : capOutcome d bo fd cap s.mem = some e) :
    (GetCropCapability d bo fd cap s).1 =
      (CropCapability.zero, some (Errorf "crop capability: %w" [.err e])) := by
  unfold capOutcome at h
  unfold GetCropCapability send
  simp only [h]

theorem GetCropCapability_ok (d : Dispatch) (bo : ByteOrder) (fd cap : Nat) (s : Machine)
    (h : capOutcome d bo fd cap s.mem = none) :
    (GetCropCapability d bo fd cap s).1 =
      (CropCapability.load bo (capReply d bo fd cap s.mem) cap, none) := by
  unfold capOutcome at h
  unfold GetCropCapability send capReply
  simp only [h]

theorem SetCropRect_calls (d : Dispatch) (bo : ByteOrder) (fd : Nat) (r : Rect)
    (pr crop : Nat) (s : Machine) :
    (SetCropRect d bo fd r pr crop s).2.calls =
      s.calls ++ [⟨fd, VIDIOC_S_CROP, crop, cropRequest bo r pr crop s.mem⟩] := by
  unfold SetCropRect send
  cases (d fd VIDIOC_S_CROP crop (cropRequest bo r pr crop s.mem)).1 <;> rfl

theorem SetCropRect_fail (d : Dispatch) (bo : ByteOrder) (fd : Nat) (r : Rect)
    (pr crop : Nat) (s : Machine) (e : GoError)
    (h : cropOutcome d bo fd r pr crop s.mem = some e) :
    (SetCropRect d bo fd r pr crop s).1 = some (Errorf "set crop: %w" [.err e]) := by
  unfold cropOutcome at h
  unfold SetCropRect send
  simp only [h]

theorem SetCropRect_ok (d : Dispatch) (bo : ByteOrder) (fd : Nat) (r : Rect)
    (pr crop : Nat) (s : Machine) (h : cropOutcome d bo fd r pr crop s.mem = none) :
    (SetCropRect d bo fd r pr crop s).1 = none := by
  unfold cropOutcome at h
  unfold SetCropRect send
  simp only [h]

theorem load_fields (bo : ByteOrder) (m : Mem) (a : Nat) :
    (CropCapability.load bo m a).StreamType = (v4l2_cropcap.load bo m a).type ∧
    (CropCapability.load bo m a).Bounds =
      ⟨(v4l2_cropcap.load bo m a).bounds.left, (v4l2_cropcap.load bo m a).bounds.top,
        (v4l2_cropcap.load bo m a).bounds.width, (v4l2_cropcap.load bo m a).bounds.height⟩ ∧
    (CropCapability.load bo m a).DefaultRect =
      ⟨(v4l2_cropcap.load bo m a).defrect.left, (v4l2_cropcap.load bo m a).defrect.top,
        (v4l2_cropcap.load bo m a).defrect.width, (v4l2_cropcap.load bo m a).defrect.height⟩ ∧
    (CropCapability.load bo m a).PixelAspect =
      ⟨(v4l2_cropcap.load bo m a).pixelaspect.numerator,
        (v4l2_cropcap.load bo m a).pixelaspect.denominator⟩ := by
  unfold CropCapability.load v4l2_cropcap.load Rect.load v4l2_rect.load Fract.load
    v4l2_fract.load
  simp only [off_Left, off_Top, off_Width, off_Height, off_Numerator, off_Denominator,
    off_StreamType, off_Bounds, off_DefaultRect, off_PixelAspect, off_left, off_top, off_width,
    off_height, off_numerator, off_denominator, off_type, off_bounds, off_defrect,
    off_pixelaspect, and_self]

theorem messages_differ (a b : String) : "set crop: " ++ a ≠ "crop capability: " ++ b := by
  intro h
  have h1 := congrArg String.data h
  rw [data_append, data_append] at h1
  have h2 := congrArg List.head? h1
  have h3 : some 's' = some 'c' := h2
  exact absurd h3 (by decide)

theorem cropRequest_fields (bo : ByteOrder) (r : Rect) (pr crop : Nat) (m : Mem)
    (hr : r.InRange) (hd : pr + 16 ≤ crop ∨ crop + 20 ≤ pr) :
    Mem.loadS32 bo (cropRequest bo r pr crop m) (crop + 4) = r.Left ∧
    Mem.loadS32 bo (cropRequest bo r pr crop m) (crop + 8) = r.Top ∧
    Mem.loadU32 bo (cropRequest bo r pr crop m) (crop + 12) = r.Width ∧
    Mem.loadU32 bo (cropRequest bo r pr crop m) (crop + 16) = r.Height := by
  have h := cropRequest_rect bo r pr crop m hr hd
  unfold v4l2_rect.load at h
  simp only [off_left, off_top, off_width, off_height, Nat.add_zero, Nat.add_assoc,
    Nat.reduceAdd, v4l2_rect.mk.injEq] at h
  exact h

theorem reply_fullHD :
    v4l2_cropcap.load .little (capReply (replyDispatch .little fullHD) .little 3 4096 dirtyMem)
      4096 = fullHD := by
  decide

theorem reply_degenerate :
    v4l2_cropcap.load .big (capReply (replyDispatch .big degenerate) .big 3 4096 dirtyMem)
      4096 = degenerate := by
  decide

/-! ## The diagnostic text -/

theorem fmtInt_eq_toString (i : Int) : (⟨fmtInt i⟩ : String) = toString i := by
  cases i with
  | ofNat n => rfl
  | negSucc n =>
    have h : Int.negSucc n < 0 := Int.negSucc_lt_zero n
    unfold fmtInt
    rw [if_pos h]
    rfl

theorem fmtUint_eq_toString (n : Nat) : (⟨fmtUint n⟩ : String) = toString n := rfl

set_option maxRecDepth 100000 in
theorem String_data (c : CropCapability) :
    c.String.data =
      "default:\x7btop=".data ++ (fmtInt c.DefaultRect.Top ++ (", left=".data ++
      (fmtInt c.DefaultRect.Left ++ (", width=".data ++ (fmtUint c.DefaultRect.Width ++
      (",height=".data ++ (fmtUint c.DefaultRect.Height ++ ("\x7d;  bounds:\x7btop=".data ++
      (fmtInt c.Bounds.Top ++ (", left=".data ++ (fmtInt c.Bounds.Left ++ (", width=".data ++
      (fmtUint c.Bounds.Width ++ (",height=".data ++ (fmtUint c.Bounds.Height ++
      ("\x7d; pixel-aspect\x7b".data ++ (fmtUint c.PixelAspect.Numerator ++ (":".data ++
      (fmtUint c.PixelAspect.Denominator ++ "\x7d".data))))))))))))))))))) := by
  rfl

set_option maxRecDepth 100000 in
theorem String_fullHD :
    occurrences "1920".data (CropCapability.String
      ⟨0, ⟨0, 0, 1920, 1080⟩, ⟨0, 0, 1920, 1080⟩, ⟨1, 1⟩, []⟩).data = 2 ∧
    occurrences "1080".data (CropCapability.String
      ⟨0, ⟨0, 0, 1920, 1080⟩, ⟨0, 0, 1920, 1080⟩, ⟨1, 1⟩, []⟩).data = 2 ∧
    occurrences "1:1".data (CropCapability.String
      ⟨0, ⟨0, 0, 1920, 1080⟩, ⟨0, 0, 1920, 1080⟩, ⟨1, 1⟩, []⟩).data = 1 ∧
    CropCapability.String ⟨0, ⟨0, 0, 1920, 1080⟩, ⟨0, 0, 1920, 1080⟩, ⟨1, 1⟩, []⟩ =
      "default:\x7btop=0, left=0, width=1920,height=1080\x7d;  bounds:\x7btop=0, left=0, width=1920,height=1080\x7d; pixel-aspect\x7b1:1\x7d" := by
  decide

/-! ## Reading the diagnostic text back -/

theorem digitChar_facts :
    ∀ k, k < 10 → digitVal (Nat.digitChar k) = k ∧ (Nat.digitChar k).isDigit = true := by
  decide

theorem toDigitsCore_acc (fuel : Nat) : ∀ (n : Nat) (ds : List Char),
    Nat.toDigitsCore 10 fuel n ds = Nat.toDigitsCore 10 fuel n [] ++ ds := by
  induction fuel with
  | zero => intro n ds; rfl
  | succ fuel ih =>
    intro n ds
    unfold Nat.toDigitsCore
    by_cases h : n / 10 = 0
    · simp [h]
    · simp only [h, if_false]
      rw [ih (n / 10) (Nat.digitChar (n % 10) :: ds), ih (n / 10) [Nat.digitChar (n % 10)],
        List.append_assoc]
      rfl

theorem decValue_snoc (l : List Char) (c : Char) :
    decValue (l ++ [c]) = 10 * decValue l + digitVal c := by
  unfold decValue
  rw [List.foldl_append]
  rfl

theorem toDigitsCore_spec (fuel : Nat) : ∀ n, n < fuel →
    decValue (Nat.toDigitsCore 10 fuel n []) = n ∧
      ∀ c ∈ Nat.toDigitsCore 10 fuel n [], c.isDigit = true := by
  induction fuel with
  | zero => intro n h; omega
  | succ fuel ih =>
    intro n hn
    have hd := digitChar_facts (n % 10) (Nat.mod_lt _ (by decide))
    unfold Nat.toDigitsCore
    by_cases h : n / 10 = 0
    · simp only [h, if_true]
      refine ⟨?_, ?_⟩
      · show 10 * 0 + digitVal (Nat.digitChar (n % 10)) = n
        rw [hd.1]
        omega
      · intro c hc
        rw [List.mem_singleton] at hc
        rw [hc]
        exact hd.2
    · simp only [h, if_false]
      rw [toDigitsCore_acc]
      have hlt : n / 10 < fuel := by omega
      obtain ⟨hv, hall⟩ := ih (n / 10) hlt
      refine ⟨?_, ?_⟩
      · rw [decValue_snoc, hv, hd.1]
        omega
      · intro c hc
        rw [List.mem_append, List.mem_singleton] at hc
        rcases hc with hc | hc
        · exact hall c hc
        · rw [hc]
          exact hd.2

theorem fmtUint_eq (n : Nat) : fmtUint n = Nat.toDigitsCore 10 (n + 1) n [] := rfl

theorem decValue_fmtUint (n : Nat) : decValue (fmtUint n) = n :=
  (toDigitsCore_spec (n + 1) n (Nat.lt_succ_self n)).1

theorem fmtUint_isDigit (n : Nat) : ∀ c ∈ fmtUint n, c.isDigit = true :=
  (toDigitsCore_spec (n + 1) n (Nat.lt_succ_self n)).2

theorem fmtUint_inj {a b : Nat} (h : fmtUint a = fmtUint b) : a = b := by
  have h1 := congrArg decValue h
  rwa [decValue_fmtUint, decValue_fmtUint] at h1

theorem fmtUint_isNum (n : Nat) : ∀ c ∈ fmtUint n, isNum c = true := by
  intro c hc
  unfold isNum
  rw [fmtUint_isDigit n c hc]
  rfl

theorem fmtInt_isNum (i : Int) : ∀ c ∈ fmtInt i, isNum c = true := by
  intro c hc
  unfold fmtInt at hc
  split at hc
  · rw [List.mem_cons] at hc
    rcases hc with hc | hc
    · rw [hc]
      decide
    · exact fmtUint_isNum _ c hc
  · exact fmtUint_isNum _ c hc

theorem minus_not_in_fmtUint (n : Nat) (t : List Char) : fmtUint n ≠ '-' :: t := by
  intro h
  have h1 := fmtUint_isDigit n '-' (by rw [h]; exact List.mem_cons_self _ _)
  exact absurd h1 (by decide)

theorem fmtInt_inj {a b : Int} (h : fmtInt a = fmtInt b) : a = b := by
  unfold fmtInt at h
  by_cases ha : a < 0 <;> by_cases hb : b < 0
  · rw [if_pos ha, if_pos hb] at h
    have h1 := fmtUint_inj (List.cons.inj h).2
    omega
  · rw [if_pos ha, if_neg hb] at h
    exact absurd h.symm (minus_not_in_fmtUint _ _)
  · rw [if_neg ha, if_pos hb] at h
    exact absurd h (minus_not_in_fmtUint _ _)
  · rw [if_neg ha, if_neg hb] at h
    have h1 := fmtUint_inj h
    omega

theorem token_split (sep : List Char) (hsep : sep.head?.map isNum = some false) :
    ∀ (a a' r r' : List Char), (∀ c ∈ a, isNum c = true) → (∀ c ∈ a', isNum c = true) →
      a ++ (sep ++ r) = a' ++ (sep ++ r') → a = a' ∧ r = r' := by
  cases sep with
  | nil => exact absurd hsep (by simp)
  | cons s l =>
    have hs : isNum s = false := by simpa using hsep
    intro a
    induction a with
    | nil =>
      intro a' r r' _ ha' h
      cases a' with
      | nil => exact ⟨rfl, List.append_cancel_left h⟩
      | cons y a1 =>
        have hy : s = y := (List.cons.inj h).1
        have := ha' y (List.mem_cons_self _ _)
        rw [← hy, hs] at this
        exact absurd this (by decide)
    | cons x a1 ih =>
      intro a' r r' ha ha' h
      cases a' with
      | nil =>
        have hx : x = s := (List.cons.inj h).1
        have := ha x (List.mem_cons_self _ _)
        rw [hx, hs] at this
        exact absurd this (by decide)
      | cons y a1' =>
        obtain ⟨hxy, ht⟩ := List.cons.inj h
        obtain ⟨e1, e2⟩ := ih a1' r r' (fun c hc => ha c (List.mem_cons_of_mem _ hc))
          (fun c hc => ha' c (List.mem_cons_of_mem _ hc)) ht
        exact ⟨by rw [hxy, e1], e2⟩

theorem String_fields {c1 c2 : CropCapability} (h : c1.String = c2.String) :
    (c1.DefaultRect.Top = c2.DefaultRect.Top ∧ c1.DefaultRect.Left = c2.DefaultRect.Left ∧
      c1.DefaultRect.Width = c2.DefaultRect.Width ∧
      c1.DefaultRect.Height = c2.DefaultRect.Height) ∧
    (c1.Bounds.Top = c2.Bounds.Top ∧ c1.Bounds.Left = c2.Bounds.Left ∧
      c1.Bounds.Width = c2.Bounds.Width ∧ c1.Bounds.Height = c2.Bounds.Height) ∧
    c1.PixelAspect.Numerator = c2.PixelAspect.Numerator ∧
    c1.PixelAspect.Denominator = c2.PixelAspect.Denominator := by
  have h0 := congrArg String.data h
  rw [String_data, String_data] at h0
  have h1 := List.append_cancel_left h0
  obtain ⟨e1, h2⟩ := token_split ", left=".data rfl _ _ _ _ (fmtInt_isNum _) (fmtInt_isNum _) h1
  obtain ⟨e2, h3⟩ := token_split ", width=".data rfl _ _ _ _ (fmtInt_isNum _) (fmtInt_isNum _) h2
  obtain ⟨e3, h4⟩ := token_split ",height=".data rfl _ _ _ _ (fmtUint_isNum _)
    (fmtUint_isNum _) h3
  obtain ⟨e4, h5⟩ := token_split "\x7d;  bounds:\x7btop=".data rfl _ _ _ _ (fmtUint_isNum _)
    (fmtUint_isNum _) h4
  obtain ⟨e5, h6⟩ := token_split ", left=".data rfl _ _ _ _ (fmtInt_isNum _) (fmtInt_isNum _) h5
  obtain ⟨e6, h7⟩ := token_split ", width=".data rfl _ _ _ _ (fmtInt_isNum _) (fmtInt_isNum _) h6
  obtain ⟨e7, h8⟩ := token_split ",height=".data rfl _ _ _ _ (fmtUint_isNum _)
    (fmtUint_isNum _) h7
  obtain ⟨e8, h9⟩ := token_split "\x7d; pixel-aspect\x7b".data rfl _ _ _ _ (fmtUint_isNum _)
    (fmtUint_isNum _) h8
  obtain ⟨e9, h10⟩ := token_split ":".data rfl _ _ _ _ (fmtUint_isNum _) (fmtUint_isNum _) h9
  have e10 := List.append_cancel_right h10
  exact ⟨⟨fmtInt_inj e1, fmtInt_inj e2, fmtUint_inj e3, fmtUint_inj e4⟩,
    ⟨fmtInt_inj e5, fmtInt_inj e6, fmtUint_inj e7, fmtUint_inj e8⟩,
    fmtUint_inj e9, fmtUint_inj e10⟩

theorem Rect_eq {a b : Rect} (h : a.Top = b.Top ∧ a.Left = b.Left ∧ a.Width = b.Width ∧
    a.Height = b.Height) : a = b := by
  obtain ⟨l, t, w, ht⟩ := a
  obtain ⟨l', t', w', ht'⟩ := b
  obtain ⟨h1, h2, h3, h4⟩ := h
  simp only at h1 h2 h3 h4
  rw [h1, h2, h3, h4]

theorem Fract_eq {a b : Fract} (h1 : a.Numerator = b.Numerator)
    (h2 : a.Denominator = b.Denominator) : a = b := by
  obtain ⟨n, d⟩ := a
  obtain ⟨n', d'⟩ := b
  simp only at h1 h2
  rw [h1, h2]

/-! ## One application of the dispatch primitive -/

theorem store_cell_other (m : Mem) (a : Nat) (bs : List Nat) (x : Nat)
    (h : x < a ∨ a + bs.length ≤ x) : (m.store a bs) x = m x := by
  unfold Mem.store
  rw [if_neg (by omega)]

theorem storeU32_cell_other (bo : ByteOrder) (m : Mem) (a w x : Nat)
    (h : x < a ∨ a + 4 ≤ x) : (Mem.storeU32 bo m a w) x = m x := by
  unfold Mem.storeU32
  exact store_cell_other m a _ x (by rw [length_encode32]; exact h)

theorem Rect_store_cell_other (bo : ByteOrder) (m : Mem) (a : Nat) (r : Rect) (x : Nat)
    (h : x < a ∨ a + 16 ≤ x) : (Rect.store bo m a r) x = m x := by
  unfold Rect.store
  simp only [off_Left, off_Top, off_Width, off_Height, Mem.storeS32]
  rw [storeU32_cell_other bo _ (a + 12) _ x (by omega),
    storeU32_cell_other bo _ (a + 8) _ x (by omega),
    storeU32_cell_other bo _ (a + 4) _ x (by omega),
    storeU32_cell_other bo _ (a + 0) _ x (by omega)]

theorem v4l2_rect_store_cell_other (bo : ByteOrder) (m : Mem) (a : Nat) (r : v4l2_rect)
    (x : Nat) (h : x < a ∨ a + 16 ≤ x) : (v4l2_rect.store bo m a r) x = m x := by
  unfold v4l2_rect.store
  simp only [off_left, off_top, off_width, off_height, Mem.storeS32]
  rw [storeU32_cell_other bo _ (a + 12) _ x (by omega),
    storeU32_cell_other bo _ (a + 8) _ x (by omega),
    storeU32_cell_other bo _ (a + 4) _ x (by omega),
    storeU32_cell_other bo _ (a + 0) _ x (by omega)]

theorem capRequest_cell_other (bo : ByteOrder) (cap : Nat) (m : Mem) (x : Nat)
    (h : x < cap ∨ cap + 44 ≤ x) : (capRequest bo cap m) x = m x := by
  unfold capRequest
  rw [off_type, size_v4l2_cropcap, storeU32_cell_other bo _ (cap + 0) _ x (by omega),
    store_cell_other m cap _ x (by rw [List.length_replicate]; exact h)]

theorem cropRequest_cell_other (bo : ByteOrder) (r : Rect) (pr crop : Nat) (m : Mem) (x : Nat)
    (hpr : x < pr ∨ pr + 16 ≤ x) (hcrop : x < crop ∨ crop + 20 ≤ x) :
    (cropRequest bo r pr crop m) x = m x := by
  unfold cropRequest
  simp only [off_crop_type, off_crop_c, size_v4l2_crop]
  rw [v4l2_rect_store_cell_other bo _ (crop + 4) _ x (by omega),
    storeU32_cell_other bo _ (crop + 0) _ x (by omega),
    store_cell_other _ crop _ x (by rw [List.length_replicate]; exact hcrop),
    Rect_store_cell_other bo m pr r x hpr]

theorem GetCropCapability_mem (d : Dispatch) (bo : ByteOrder) (fd cap : Nat) (s : Machine) :
    (GetCropCapability d bo fd cap s).2.mem =
      (d fd VIDIOC_CROPCAP cap (capRequest bo cap s.mem)).2 := by
  unfold GetCropCapability send
  cases (d fd VIDIOC_CROPCAP cap (capRequest bo cap s.mem)).1 <;> rfl

theorem SetCropRect_mem (d : Dispatch) (bo : ByteOrder) (fd : Nat) (r : Rect)
    (pr crop : Nat) (s : Machine) :
    (SetCropRect d bo fd r pr crop s).2.mem =
      (d fd VIDIOC_S_CROP crop (cropRequest bo r pr crop s.mem)).2 := by
  unfold SetCropRect send
  cases (d fd VIDIOC_S_CROP crop (cropRequest bo r pr crop s.mem)).1 <;> rfl

theorem GetCropCapability_error (d : Dispatch) (bo : ByteOrder) (fd cap : Nat) (s : Machine) :
    ((GetCropCapability d bo fd cap s).1.2 = none ↔
      (d fd VIDIOC_CROPCAP cap (capRequest bo cap s.mem)).1 = none) ∧
    ∀ e, (d fd VIDIOC_CROPCAP cap (capRequest bo cap s.mem)).1 = some e →
      ∃ err, (GetCropCapability d bo fd cap s).1.2 = some err ∧ err.Unwrap = some e := by
  constructor
  · cases h : capOutcome d bo fd cap s.mem with
    | none =>
      have h' := h
      unfold capOutcome at h'
      simp [GetCropCapability_ok d bo fd cap s h, h']
    | some e =>
      have h' := h
      unfold capOutcome at h'
      simp [GetCropCapability_fail d bo fd cap s e h, h']
  · intro e h
    rw [GetCropCapability_fail d bo fd cap s e h, Errorf_capability]
    exact ⟨_, rfl, rfl⟩

theorem SetCropRect_error (d : Dispatch) (bo : ByteOrder) (fd : Nat) (r : Rect)
    (pr crop : Nat) (s : Machine) :
    ((SetCropRect d bo fd r pr crop s).1 = none ↔
      (d fd VIDIOC_S_CROP crop (cropRequest bo r pr crop s.mem)).1 = none) ∧
    ∀ e, (d fd VIDIOC_S_CROP crop (cropRequest bo r pr crop s.mem)).1 = some e →
      ∃ err, (SetCropRect d bo fd r pr crop s).1 = some err ∧ err.Unwrap = some e := by
  constructor
  · cases h : cropOutcome d bo fd r pr crop s.mem with
    | none =>
      have h' := h
      unfold cropOutcome at h'
      simp [SetCropRect_ok d bo fd r pr crop s h, h']
    | some e =>
      have h' := h
      unfold cropOutcome at h'
      simp [SetCropRect_fail d bo fd r pr crop s e h, h']
  · intro e h
    rw [SetCropRect_fail d bo fd r pr crop s e h, Errorf_setCrop]
    exact ⟨_, rfl, rfl⟩

theorem counting_cell (d : Dispatch) (ctr fd req arg : Nat) (m : Mem) :
    (counting d ctr fd req arg m).2 ctr = m ctr + 1 := by
  unfold counting
  simp

/-! ## The claims -/

/-- C1: when the dispatch primitive fails with `e` on the capability query,
`GetCropCapability` returns the zero-valued `CropCapability` (every field 0)
and an error that wraps `e` and whose message is "crop capability: " followed
by the message of `e`, so that it ends with the message of `e`. -/
theorem GetCropCapability_dispatch_failure (d : Dispatch) (bo : ByteOrder) (fd cap : Nat)
    (s : Machine) (e : GoError) (h : capOutcome d bo fd cap s.mem = some e) :
    (GetCropCapability d bo fd cap s).1.1 = ⟨0, ⟨0, 0, 0, 0⟩, ⟨0, 0, 0, 0⟩, ⟨0, 0⟩, [0, 0, 0, 0]⟩ ∧
    ∃ err, (GetCropCapability d bo fd cap s).1.2 = some err ∧ err.Unwrap = some e ∧
      err.Error = "crop capability: " ++ e.Error ∧ e.Error.data <:+ err.Error.data := by
  rw [GetCropCapability_fail d bo fd cap s e h, Errorf_capability]
  refine ⟨rfl, _, rfl, rfl, rfl, ?_⟩
  show e.Error.data <:+ ("crop capability: " ++ e.Error).data
  rw [data_append]
  exact List.suffix_append _ _

/-- Witness of C1: a dispatch primitive that fails with "device busy". -/
theorem GetCropCapability_dispatch_failure_busy :
    capOutcome busyDispatch .little 3 4096 dirtyMem = some (.plain "device busy") ∧
    (GetCropCapability busyDispatch .little 3 4096 ⟨dirtyMem, []⟩).1.1 =
      ⟨0, ⟨0, 0, 0, 0⟩, ⟨0, 0, 0, 0⟩, ⟨0, 0⟩, [0, 0, 0, 0]⟩ ∧
    ∃ err, (GetCropCapability busyDispatch .little 3 4096 ⟨dirtyMem, []⟩).1.2 = some err ∧
      err.Unwrap = some (.plain "device busy") ∧
      err.Error = "crop capability: " ++ (GoError.plain "device busy").Error ∧
      (GoError.plain "device busy").Error.data <:+ err.Error.data :=
  ⟨rfl, GetCropCapability_dispatch_failure busyDispatch .little 3 4096 ⟨dirtyMem, []⟩
    (.plain "device busy") rfl⟩

/-- C2: `SetCropRect` returns nil exactly when the dispatch primitive
succeeds on the set-crop command; when dispatch fails with `e` the result is
an error that wraps `e` and whose message is "set crop: " followed by the
message of `e`; and no such message equals a message of the capability query,
whose text starts with "crop capability: ". -/
theorem SetCropRect_error_iff (d : Dispatch) (bo : ByteOrder) (fd : Nat) (r : Rect)
    (pr crop : Nat) (s : Machine) :
    ((SetCropRect d bo fd r pr crop s).1 = none ↔ cropOutcome d bo fd r pr crop s.mem = none) ∧
    (∀ e, cropOutcome d bo fd r pr crop s.mem = some e →
      ∃ err, (SetCropRect d bo fd r pr crop s).1 = some err ∧ err.Unwrap = some e ∧
        err.Error = "set crop: " ++ e.Error) ∧
    "set crop: " ≠ "crop capability: " ∧
    ∀ e1 e2 : GoError, "set crop: " ++ e1.Error ≠ "crop capability: " ++ e2.Error := by
  refine ⟨?_, ?_, by decide, fun e1 e2 => messages_differ _ _⟩
  · cases h : cropOutcome d bo fd r pr crop s.mem with
    | none => simp [SetCropRect_ok d bo fd r pr crop s h]
    | some e => simp [SetCropRect_fail d bo fd r pr crop s e h]
  · intro e h
    rw [SetCropRect_fail d bo fd r pr crop s e h, Errorf_setCrop]
    exact ⟨_, rfl, rfl, rfl⟩

/-- C3: when the dispatch primitive succeeds, `GetCropCapability` returns a
nil error and a `CropCapability` whose `StreamType`, `Bounds`, `DefaultRect`
and `PixelAspect` are the fields `type`, `bounds`, `defrect` and `pixelaspect`
of the buffer as the dispatch primitive left it, field for field. -/
theorem GetCropCapability_success (d : Dispatch) (bo : ByteOrder) (fd cap : Nat)
    (s : Machine) (h : capOutcome d bo fd cap s.mem = none) :
    (GetCropCapability d bo fd cap s).1.2 = none ∧
    (GetCropCapability d bo fd cap s).1.1.StreamType =
      (v4l2_cropcap.load bo (capReply d bo fd cap s.mem) cap).type ∧
    (GetCropCapability d bo fd cap s).1.1.Bounds =
      ⟨(v4l2_cropcap.load bo (capReply d bo fd cap s.mem) cap).bounds.left,
        (v4l2_cropcap.load bo (capReply d bo fd cap s.mem) cap).bounds.top,
        (v4l2_cropcap.load bo (capReply d bo fd cap s.mem) cap).bounds.width,
        (v4l2_cropcap.load bo (capReply d bo fd cap s.mem) cap).bounds.height⟩ ∧
    (GetCropCapability d bo fd cap s).1.1.DefaultRect =
      ⟨(v4l2_cropcap.load bo (capReply d bo fd cap s.mem) cap).defrect.left,
        (v4l2_cropcap.load bo (capReply d bo fd cap s.mem) cap).defrect.top,
        (v4l2_cropcap.load bo (capReply d bo fd cap s.mem) cap).defrect.width,
        (v4l2_cropcap.load bo (capReply d bo fd cap s.mem) cap).defrect.height⟩ ∧
    (GetCropCapability d bo fd cap s).1.1.PixelAspect =
      ⟨(v4l2_cropcap.load bo (capReply d bo fd cap s.mem) cap).pixelaspect.numerator,
        (v4l2_cropcap.load bo (capReply d bo fd cap s.mem) cap).pixelaspect.denominator⟩ := by
  rw [GetCropCapability_ok d bo fd cap s h]
  exact ⟨rfl, load_fields bo _ cap⟩

/-- C5: the stream type of the request buffer handed to the dispatch
primitive is `BufTypeVideoCapture`, for `GetCropCapability` and for
`SetCropRect`, whatever the handle, the rectangle, the addresses and the
memory. -/
theorem request_stream_type (d : Dispatch) (bo : ByteOrder) (fd : Nat) (r : Rect)
    (cap pr crop : Nat) (s : Machine) :
    (∃ c, (GetCropCapability d bo fd cap s).2.calls = s.calls ++ [c] ∧
      (v4l2_cropcap.load bo c.mem c.arg).type = BufTypeVideoCapture) ∧
    (∃ c, (SetCropRect d bo fd r pr crop s).2.calls = s.calls ++ [c] ∧
      (v4l2_crop.load bo c.mem c.arg).type = BufTypeVideoCapture) := by
  refine ⟨⟨_, GetCropCapability_calls d bo fd cap s, ?_⟩,
    ⟨_, SetCropRect_calls d bo fd r pr crop s, ?_⟩⟩
  · show Mem.loadU32 bo (capRequest bo cap s.mem) (cap + offsetOf v4l2_cropcap.layout "type") = _
    rw [off_type]
    exact capRequest_type bo cap s.mem
  · show Mem.loadU32 bo (cropRequest bo r pr crop s.mem)
      (crop + offsetOf v4l2_crop.layout "type") = _
    rw [off_crop_type]
    exact cropRequest_type bo r pr crop s.mem

/-- C10: one call of `GetCropCapability` makes exactly one invocation of the
dispatch primitive, with the handle `fd`, the code `VIDIOC_CROPCAP` and the
address of `cap`, on the request buffer: the call log grows by that one
entry, the memory the operation ends in is the memory that one application of
the primitive to the request leaves, the returned error is nil exactly when
that application returned nil and otherwise wraps the error it returned (no
retry after a failure, no second call after a success), and a primitive that
counts its own invocations in a memory cell outside the variables of the
operation counts one. The same holds for `SetCropRect` with `VIDIOC_S_CROP`
and the address of `crop`. The two codes differ. -/
theorem one_dispatch_per_call (d : Dispatch) (bo : ByteOrder) (fd : Nat) (r : Rect)
    (cap pr crop ctr : Nat) (s : Machine) (hcap : ctr < cap ∨ cap + 44 ≤ ctr)
    (hpr : ctr < pr ∨ pr + 16 ≤ ctr) (hcrop : ctr < crop ∨ crop + 20 ≤ ctr) :
    ((∃ c, (GetCropCapability d bo fd cap s).2.calls = s.calls ++ [c] ∧
        c.fd = fd ∧ c.req = VIDIOC_CROPCAP ∧ c.arg = cap ∧ c.mem = capRequest bo cap s.mem) ∧
      (GetCropCapability d bo fd cap s).2.mem =
        (d fd VIDIOC_CROPCAP cap (capRequest bo cap s.mem)).2 ∧
      ((GetCropCapability d bo fd cap s).1.2 = none ↔
        (d fd VIDIOC_CROPCAP cap (capRequest bo cap s.mem)).1 = none) ∧
      (∀ e, (d fd VIDIOC_CROPCAP cap (capRequest bo cap s.mem)).1 = some e →
        ∃ err, (GetCropCapability d bo fd cap s).1.2 = some err ∧ err.Unwrap = some e) ∧
      (GetCropCapability (counting d ctr) bo fd cap s).2.mem ctr = s.mem ctr + 1) ∧
    ((∃ c, (SetCropRect d bo fd r pr crop s).2.calls = s.calls ++ [c] ∧
        c.fd = fd ∧ c.req = VIDIOC_S_CROP ∧ c.arg = crop ∧
        c.mem = cropRequest bo r pr crop s.mem) ∧
      (SetCropRect d bo fd r pr crop s).2.mem =
        (d fd VIDIOC_S_CROP crop (cropRequest bo r pr crop s.mem)).2 ∧
      ((SetCropRect d bo fd r pr crop s).1 = none ↔
        (d fd VIDIOC_S_CROP crop (cropRequest bo r pr crop s.mem)).1 = none) ∧
      (∀ e, (d fd VIDIOC_S_CROP crop (cropRequest bo r pr crop s.mem)).1 = some e →
        ∃ err, (SetCropRect d bo fd r pr crop s).1 = some err ∧ err.Unwrap = some e) ∧
      (SetCropRect (counting d ctr) bo fd r pr crop s).2.mem ctr = s.mem ctr + 1) ∧
    VIDIOC_CROPCAP ≠ VIDIOC_S_CROP := by
  refine ⟨⟨⟨_, GetCropCapability_calls d bo fd cap s, rfl, rfl, rfl, rfl⟩,
      GetCropCapability_mem d bo fd cap s, (GetCropCapability_error d bo fd cap s).1,
      (GetCropCapability_error d bo fd cap s).2, ?_⟩,
    ⟨⟨_, SetCropRect_calls d bo fd r pr crop s, rfl, rfl, rfl, rfl⟩,
      SetCropRect_mem d bo fd r pr crop s, (SetCropRect_error d bo fd r pr crop s).1,
      (SetCropRect_error d bo fd r pr crop s).2, ?_⟩, by decide⟩
  · rw [GetCropCapability_mem, counting_cell, capRequest_cell_other bo cap s.mem ctr hcap]
  · rw [SetCropRect_mem, counting_cell, cropRequest_cell_other bo r pr crop s.mem ctr hpr hcrop]

/-- Witness of C10: a primitive that always fails with "device busy" and
counts its invocations in the cell at address 100 is invoked once by each
operation: the cell goes from 0 to 1 and the error is returned. -/
theorem one_dispatch_per_call_busy :
    ((100 < 4096 ∨ 4096 + 44 ≤ 100) ∧ (100 < 8192 ∨ 8192 + 16 ≤ 100) ∧
      (100 < 4200 ∨ 4200 + 20 ≤ 100)) ∧
    (GetCropCapability (counting busyDispatch 100) .little 3 4096 ⟨zeroMem, []⟩).2.mem 100 =
      zeroMem 100 + 1 ∧
    (SetCropRect (counting busyDispatch 100) .little 3 ⟨10, 20, 640, 480⟩ 8192 4200
      ⟨zeroMem, []⟩).2.mem 100 = zeroMem 100 + 1 ∧
    ((GetCropCapability busyDispatch .little 3 4096 ⟨zeroMem, []⟩).1.2 = none ↔
      (busyDispatch 3 VIDIOC_CROPCAP 4096 (capRequest .little 4096 zeroMem)).1 = none) :=
  ⟨by decide,
    (one_dispatch_per_call busyDispatch .little 3 ⟨10, 20, 640, 480⟩ 4096 8192 4200 100
      ⟨zeroMem, []⟩ (by decide) (by decide) (by decide)).1.2.2.2.2,
    (one_dispatch_per_call busyDispatch .little 3 ⟨10, 20, 640, 480⟩ 4096 8192 4200 100
      ⟨zeroMem, []⟩ (by decide) (by decide) (by decide)).2.1.2.2.2.2,
    (one_dispatch_per_call busyDispatch .little 3 ⟨10, 20, 640, 480⟩ 4096 8192 4200 100
      ⟨zeroMem, []⟩ (by decide) (by decide) (by decide)).1.2.2.1⟩

/-- Witness of C3: a reply with bounds and default rectangle {0, 0, 1920, 1080}
and pixel aspect {1, 1} is returned with exactly those fields, and a reply
whose pixel aspect has denominator 0 is returned unchanged with a nil error. -/
theorem GetCropCapability_success_scenarios :
    (capOutcome (replyDispatch .little fullHD) .little 3 4096 dirtyMem = none ∧
      (GetCropCapability (replyDispatch .little fullHD) .little 3 4096 ⟨dirtyMem, []⟩).1.2 = none ∧
      (GetCropCapability (replyDispatch .little fullHD) .little 3 4096
        ⟨dirtyMem, []⟩).1.1.StreamType = 1 ∧
      (GetCropCapability (replyDispatch .little fullHD) .little 3 4096
        ⟨dirtyMem, []⟩).1.1.Bounds = ⟨0, 0, 1920, 1080⟩ ∧
      (GetCropCapability (replyDispatch .little fullHD) .little 3 4096
        ⟨dirtyMem, []⟩).1.1.DefaultRect = ⟨0, 0, 1920, 1080⟩ ∧
      (GetCropCapability (replyDispatch .little fullHD) .little 3 4096
        ⟨dirtyMem, []⟩).1.1.PixelAspect = ⟨1, 1⟩) ∧
    (capOutcome (replyDispatch .big degenerate) .big 3 4096 dirtyMem = none ∧
      (GetCropCapability (replyDispatch .big degenerate) .big 3 4096 ⟨dirtyMem, []⟩).1.2 = none ∧
      (GetCropCapability (replyDispatch .big degenerate) .big 3 4096
        ⟨dirtyMem, []⟩).1.1.Bounds = ⟨-8, -4, 640, 480⟩ ∧
      (GetCropCapability (replyDispatch .big degenerate) .big 3 4096
        ⟨dirtyMem, []⟩).1.1.PixelAspect = ⟨1, 0⟩) := by
  have h1 := GetCropCapability_success (replyDispatch .little fullHD) .little 3 4096
    ⟨dirtyMem, []⟩ rfl
  have h2 := GetCropCapability_success (replyDispatch .big degenerate) .big 3 4096
    ⟨dirtyMem, []⟩ rfl
  rw [reply_fullHD] at h1
  rw [reply_degenerate] at h2
  exact ⟨⟨rfl, h1.1, h1.2.1, h1.2.2.1, h1.2.2.2.1, h1.2.2.2.2⟩,
    ⟨rfl, h2.1, h2.2.2.1, h2.2.2.2.2⟩⟩

/-- C4: the request buffer `SetCropRect` hands to the dispatch primitive holds
the rectangle `r` in its sub-field `c`, which starts at byte offset 4 after
the 4-byte stream type: `left = r.Left` at offset 4 and `top = r.Top` at
offset 8 as signed 32-bit values, `width = r.Width` at offset 12 and
`height = r.Height` at offset 16 as unsigned 32-bit values; the stream type
and the rectangle fill the buffer, so every byte of it outside the two is
zero. `r` holds values of its Go types and lies outside the variable `crop`. -/
theorem SetCropRect_request_rect (d : Dispatch) (bo : ByteOrder) (fd : Nat) (r : Rect)
    (pr crop : Nat) (s : Machine) (hr : r.InRange)
    (hd : pr + 16 ≤ crop ∨ crop + 20 ≤ pr) :
    ∃ c, (SetCropRect d bo fd r pr crop s).2.calls = s.calls ++ [c] ∧ c.arg = crop ∧
      offsetOf v4l2_crop.layout "c" = 4 ∧
      Mem.loadS32 bo c.mem (c.arg + 4) = r.Left ∧
      Mem.loadS32 bo c.mem (c.arg + 8) = r.Top ∧
      Mem.loadU32 bo c.mem (c.arg + 12) = r.Width ∧
      Mem.loadU32 bo c.mem (c.arg + 16) = r.Height ∧
      (v4l2_crop.load bo c.mem c.arg).c = ⟨r.Left, r.Top, r.Width, r.Height⟩ ∧
      structSize v4l2_crop.layout = 4 + structSize v4l2_rect.layout ∧
      ∀ i, i < structSize v4l2_crop.layout → ¬ i < 4 →
        ¬ (4 ≤ i ∧ i < 4 + structSize v4l2_rect.layout) → c.mem.byte (c.arg + i) = 0 := by
  obtain ⟨h1, h2, h3, h4⟩ := cropRequest_fields bo r pr crop s.mem hr hd
  refine ⟨_, SetCropRect_calls d bo fd r pr crop s, rfl, off_crop_c, h1, h2, h3, h4, ?_,
    by decide, ?_⟩
  · show v4l2_rect.load bo (cropRequest bo r pr crop s.mem)
      (crop + offsetOf v4l2_crop.layout "c") = _
    rw [off_crop_c]
    exact cropRequest_rect bo r pr crop s.mem hr hd
  · intro i hi h4 h20
    rw [size_v4l2_crop] at hi
    rw [size_v4l2_rect] at h20
    omega

/-- Witness of C4: for `r = {Left: 10, Top: 20, Width: 640, Height: 480}` the
sub-field holds 10, 20, 640, 480. -/
theorem SetCropRect_request_rect_example :
    ∃ c, (SetCropRect idleDispatch .little 3 ⟨10, 20, 640, 480⟩ 8192 4096
        ⟨dirtyMem, []⟩).2.calls = [] ++ [c] ∧ c.arg = 4096 ∧
      offsetOf v4l2_crop.layout "c" = 4 ∧
      Mem.loadS32 .little c.mem (c.arg + 4) = 10 ∧
      Mem.loadS32 .little c.mem (c.arg + 8) = 20 ∧
      Mem.loadU32 .little c.mem (c.arg + 12) = 640 ∧
      Mem.loadU32 .little c.mem (c.arg + 16) = 480 ∧
      (v4l2_crop.load .little c.mem c.arg).c = ⟨10, 20, 640, 480⟩ ∧
      structSize v4l2_crop.layout = 4 + structSize v4l2_rect.layout ∧
      ∀ i, i < structSize v4l2_crop.layout → ¬ i < 4 →
        ¬ (4 ≤ i ∧ i < 4 + structSize v4l2_rect.layout) → c.mem.byte (c.arg + i) = 0 :=
  SetCropRect_request_rect idleDispatch .little 3 ⟨10, 20, 640, 480⟩ 8192 4096
    ⟨dirtyMem, []⟩ (by decide) (by decide)

/-- C8: for every `CropCapability` the text of `String()` is the fixed
wording with the decimal renderings of the ten fields in their places: top,
left, width, height of `DefaultRect`, then of `Bounds`, then numerator and
denominator of `PixelAspect`, whatever the denominator. For bounds and default
rectangle {0, 0, 1920, 1080} and pixel aspect {1, 1} the text holds "1920"
twice, "1080" twice and "1:1". -/
theorem String_text (c : CropCapability) :
    c.String =
      "default:\x7btop=" ++ toString c.DefaultRect.Top ++ ", left=" ++
      toString c.DefaultRect.Left ++ ", width=" ++ toString c.DefaultRect.Width ++
      ",height=" ++ toString c.DefaultRect.Height ++ "\x7d;  bounds:\x7btop=" ++
      toString c.Bounds.Top ++ ", left=" ++ toString c.Bounds.Left ++ ", width=" ++
      toString c.Bounds.Width ++ ",height=" ++ toString c.Bounds.Height ++
      "\x7d; pixel-aspect\x7b" ++ toString c.PixelAspect.Numerator ++ ":" ++
      toString c.PixelAspect.Denominator ++ "\x7d" ∧
    (c.Bounds = ⟨0, 0, 1920, 1080⟩ ∧ c.DefaultRect = ⟨0, 0, 1920, 1080⟩ ∧
        c.PixelAspect = ⟨1, 1⟩ →
      occurrences "1920".data c.String.data = 2 ∧ occurrences "1080".data c.String.data = 2 ∧
      occurrences "1:1".data c.String.data = 1) := by
  constructor
  · apply String.ext
    rw [String_data, ← fmtInt_eq_toString, ← fmtInt_eq_toString, ← fmtInt_eq_toString,
      ← fmtInt_eq_toString, ← fmtUint_eq_toString, ← fmtUint_eq_toString,
      ← fmtUint_eq_toString, ← fmtUint_eq_toString, ← fmtUint_eq_toString,
      ← fmtUint_eq_toString]
    simp only [data_append, List.append_assoc]
  · rintro ⟨hb, hd, hp⟩
    obtain ⟨st, b, dr, pa, blank⟩ := c
    simp only at hb hd hp
    subst hb hd hp
    exact ⟨String_fullHD.1, String_fullHD.2.1, String_fullHD.2.2.1⟩

/-- C9: the diagnostic text determines the ten rendered fields: two
`CropCapability` values with the same text have the same `DefaultRect`, the
same `Bounds` and the same `PixelAspect`. -/
theorem String_injective (c1 c2 : CropCapability) (h : c1.String = c2.String) :
    c1.DefaultRect = c2.DefaultRect ∧ c1.Bounds = c2.Bounds ∧
      c1.PixelAspect = c2.PixelAspect := by
  obtain ⟨hd, hb, hn, hden⟩ := String_fields h
  exact ⟨Rect_eq hd, Rect_eq hb, Fract_eq hn hden⟩

/-- Witness of C9: two values that differ in the fields the text leaves out
have the same text, and their rendered fields, negative offsets and the
largest 32-bit sizes among them, are equal. -/
theorem String_injective_extremes :
    extremes.String = CropCapability.String { extremes with StreamType := 2, Blank := [9] } ∧
    extremes.DefaultRect =
      (CropCapability.mk 2 extremes.Bounds extremes.DefaultRect extremes.PixelAspect
        [9]).DefaultRect ∧
    extremes.Bounds =
      (CropCapability.mk 2 extremes.Bounds extremes.DefaultRect extremes.PixelAspect
        [9]).Bounds ∧
    extremes.PixelAspect =
      (CropCapability.mk 2 extremes.Bounds extremes.DefaultRect extremes.PixelAspect
        [9]).PixelAspect :=
  ⟨rfl, String_injective extremes { extremes with StreamType := 2, Blank := [9] } rfl⟩

/-- C6: `Rect` and `v4l2_rect` are 16 bytes, `Fract` and `v4l2_fract` are 8
bytes, and the named fields of `CropCapability` lie at the offsets 0, 4, 20, 36
of the fields of `v4l2_cropcap`; but `CropCapability` is 60 bytes and
`v4l2_cropcap` is 44, so the value `GetCropCapability` returns depends on
memory outside the buffer: two runs whose buffers hold the same 44 bytes after
the call return different values. -/
theorem CropCapability_outgrows_buffer :
    structSize Rect.layout = 16 ∧ structSize v4l2_rect.layout = 16 ∧
    structSize Fract.layout = 8 ∧ structSize v4l2_fract.layout = 8 ∧
    offsetsFrom 0 Rect.layout = [("Left", 0), ("Top", 4), ("Width", 8), ("Height", 12)] ∧
    offsetsFrom 0 CropCapability.layout =
      [("StreamType", 0), ("Bounds", 4), ("DefaultRect", 20), ("PixelAspect", 36), ("_", 44)] ∧
    offsetsFrom 0 v4l2_cropcap.layout =
      [("type", 0), ("bounds", 4), ("defrect", 20), ("pixelaspect", 36)] ∧
    structSize CropCapability.layout = 60 ∧ structSize v4l2_cropcap.layout = 44 ∧
    Mem.load (capReply idleDispatch .little 3 4096 zeroMem) 4096
        (structSize v4l2_cropcap.layout) =
      Mem.load (capReply idleDispatch .little 3 4096 dirtyMem) 4096
        (structSize v4l2_cropcap.layout) ∧
    (GetCropCapability idleDispatch .little 3 4096 ⟨zeroMem, []⟩).1.1 ≠
      (GetCropCapability idleDispatch .little 3 4096 ⟨dirtyMem, []⟩).1.1 := by
  decide

/-- C7: on the success path the unnamed field of the returned value is read
from the 16 bytes that follow the 44-byte buffer; when those bytes hold
`0xAA` the four reserved words are `0xAAAAAAAA`, not zero. -/
theorem GetCropCapability_blank_not_zero :
    (GetCropCapability (replyDispatch .little fullHD) .little 3 4096 ⟨dirtyMem, []⟩).1 =
      (⟨1, ⟨0, 0, 1920, 1080⟩, ⟨0, 0, 1920, 1080⟩, ⟨1, 1⟩,
        [0xAAAAAAAA, 0xAAAAAAAA, 0xAAAAAAAA, 0xAAAAAAAA]⟩, none) := by
  decide

end V4l2
